import Mathlib

set_option maxHeartbeats 1000000

/-!
Verification development for the industry-themed Ghostty terminal panel.

The definitions below are a shallow embedding of the two stateful components
of the repository:

* `src/src/panels/TabbedGhosttyTerminal.tsx` — the tab manager
  (`addNewTab`, `switchTab`, `closeTab`, `restoreSessions`,
  `handleSessionCreated`, the keyboard re-entrancy lock) and the per-tab
  child `TerminalTabContent`.
* `src/src/panels/GhosttyTerminal.tsx` — the single-terminal panel with
  ownership handling (`handleOwnershipLost`) and exit handling
  (`handleExit`).

React state is modelled as explicit record types; React effect
subscriptions are modelled by boolean guards computed from the state
exactly as the effect dependency guards in the source compute them.
JavaScript truthiness of strings and numbers (`""` and `0` are falsy) is
modelled explicitly by the `jsOr*` helpers.
-/

namespace GhosttyPanel

/-- JavaScript `a || b` where `a` is a possibly-undefined string and `b`
is a string: `undefined` and `""` are both falsy. -/
def jsOrString (a : Option String) (b : String) : String :=
  match a with
  | some s => if s = "" then b else s
  | none => b

/-- JavaScript `a || b` where both sides are possibly-null strings. -/
def jsOrOpt (a b : Option String) : Option String :=
  match a with
  | some s => if s = "" then b else some s
  | none => b

/-- JavaScript `a || null` on a possibly-undefined number: `0` and
`undefined` are falsy and give `null`. -/
def jsNumOrNull (a : Option Nat) : Option Nat :=
  match a with
  | some n => if n = 0 then none else some n
  | none => none

/-- JavaScript `s.startsWith(pre)`, on the underlying character lists. -/
def strStartsWith (s pre : String) : Bool :=
  pre.data.isPrefixOf s.data

/-- JavaScript `path.split('/')` on the character list of the path. -/
def splitOnSlashAux : List Char → List Char → List (List Char)
  | [], acc => [acc.reverse]
  | c :: rest, acc =>
      if c = '/' then acc.reverse :: splitOnSlashAux rest []
      else splitOnSlashAux rest (c :: acc)

/-- JavaScript `path.split('/').pop() || path`, the label default used by
`addNewTab` (source line 406) and `restoreSessions` (source line 355). -/
def lastPathSegment (path : String) : String :=
  let segs := splitOnSlashAux path.data []
  let lastSeg := (segs.getLast?).getD []
  if lastSeg.isEmpty then path else String.mk lastSeg

/-- A tab of the tabbed terminal (`TerminalTab` in `src/src/types/index.ts`,
with the `command` field used by `TabbedGhosttyTerminal.tsx`). -/
structure TerminalTab where
  id : String
  label : String
  directory : String
  command : Option String := none
  isActive : Bool
deriving Repr, DecidableEq

/-- The part of `TerminalSessionInfo` that `restoreSessions` reads:
session id, working directory, and the optional context string. -/
structure TerminalSessionInfo where
  id : String
  cwd : String
  context : Option String := none
deriving Repr, DecidableEq

/-- The tab manager state of `TabbedGhosttyTerminal`: the `tabs` list, the
`activeTabId`, and the tab-id → session-id map (`sessionIds`), modelled as
an association list in insertion order (mirroring a JS `Map`). -/
structure MgrState where
  tabs : List TerminalTab
  activeTabId : Option String
  sessionIds : List (String × String)
deriving Repr, DecidableEq

/-- JS `Map.get`. -/
def mapLookup : List (String × String) → String → Option String
  | [], _ => none
  | (k, v) :: rest, key => if k = key then some v else mapLookup rest key

/-- JS `Map.set`: replaces the value in place if the key exists, else
appends, keeping insertion order. -/
def mapSet : List (String × String) → String → String → List (String × String)
  | [], k, v => [(k, v)]
  | (k0, v0) :: rest, k, v =>
      if k0 = k then (k, v) :: rest else (k0, v0) :: mapSet rest k v

/-- JS `Map.delete`. -/
def mapDelete : List (String × String) → String → List (String × String)
  | [], _ => []
  | (k0, v0) :: rest, k =>
      if k0 = k then rest else (k0, v0) :: mapDelete rest k

/-- The context filter of `restoreSessions` (source lines 340-344):
`sessions.filter(s => showAllTerminals || s.context?.startsWith(terminalContext))`.
A session without a context string is dropped unless `showAllTerminals`. -/
def filterSessions (showAllTerminals : Bool) (terminalContext : String)
    (sessions : List TerminalSessionInfo) : List TerminalSessionInfo :=
  sessions.filter (fun session =>
    showAllTerminals ||
      (match session.context with
       | some c => strStartsWith c terminalContext
       | none => false))

/-- The tab synthesized per surviving session by `restoreSessions`
(source lines 350-362): id `tab-restored-<sessionId>`, label from the last
path segment of `session.cwd || directory`, active iff it is the first
surviving session (`index === 0`). The `Nat` argument is the `forEach`
index. -/
def mkRestoredTabs (directory : String) : Nat → List TerminalSessionInfo → List TerminalTab
  | _, [] => []
  | index, session :: rest =>
      let sessionCwd := jsOrString (some session.cwd) directory
      { id := "tab-restored-" ++ session.id
        label := lastPathSegment sessionCwd
        directory := sessionCwd
        command := none
        isActive := index == 0 } :: mkRestoredTabs directory (index + 1) rest

/-- `restoreSessions` (source lines 330-379). Branches exactly as the
source: if some sessions survive the filter and no initial tabs were
supplied, install one restored tab per surviving session; else if initial
tabs were supplied, install them verbatim and derive `activeTabId` as
`initialTabs.find(t => t.isActive)?.id || initialTabs[0]?.id || null`;
else do nothing. -/
def restoreSessions (terminalContext directory : String) (showAllTerminals : Bool)
    (initialTabs : List TerminalTab) (sessions : List TerminalSessionInfo)
    (s : MgrState) : MgrState :=
  let ourSessions := filterSessions showAllTerminals terminalContext sessions
  if 0 < ourSessions.length ∧ initialTabs.length = 0 then
    let restoredTabs := mkRestoredTabs directory 0 ourSessions
    let restoredSessionIds := ourSessions.foldl
      (fun m session => mapSet m ("tab-restored-" ++ session.id) session.id) []
    { tabs := restoredTabs
      sessionIds := restoredSessionIds
      activeTabId := jsOrOpt ((restoredTabs.head?).map (fun t => t.id)) none }
  else if 0 < initialTabs.length then
    { s with
        tabs := initialTabs
        activeTabId :=
          jsOrOpt ((initialTabs.find? (fun t => t.isActive)).map (fun t => t.id))
            (jsOrOpt ((initialTabs.head?).map (fun t => t.id)) none) }
  else
    s

/-- `switchTab` (source lines 392-400): set `isActive` of exactly the tabs
whose id equals `tabId`, and set `activeTabId`. -/
def switchTab (tabId : String) (s : MgrState) : MgrState :=
  { s with
      tabs := s.tabs.map (fun t => { t with isActive := t.id == tabId })
      activeTabId := some tabId }

/-- `addNewTab` (source lines 403-425): deactivate every tab, append a new
active tab whose directory is `targetDirectory || directory` and whose
label is `label || directoryName`. The source id `tab-${Date.now()}` is a
parameter `newId`. -/
def addNewTab (newId : String) (label command targetDirectory : Option String)
    (directory : String) (s : MgrState) : MgrState :=
  let targetDir := jsOrString targetDirectory directory
  let directoryName := lastPathSegment targetDir
  let newTab : TerminalTab :=
    { id := newId
      label := jsOrString label directoryName
      directory := targetDir
      command := command
      isActive := true }
  { s with
      tabs := (s.tabs.map (fun t => { t with isActive := false })) ++ [newTab]
      activeTabId := some newTab.id }

/-- Mutation `newActiveTab.isActive = true` on `newTabs[newTabs.length-1]`
(source line 449): sets `isActive` of the last element only. -/
def setLastActive : List TerminalTab → List TerminalTab
  | [] => []
  | [t] => [{ t with isActive := true }]
  | t :: u :: rest => t :: setLastActive (u :: rest)

/-- `closeTab` (source lines 428-460). `destroyAvailable` models the host
having provided `actions.destroyTerminalSession`; `destroyFails` models
the awaited destroy call rejecting (which is caught and only logged:
source lines 432-436). Returns the new state plus the log lines emitted.
When the closed tab was active and tabs remain, the LAST remaining tab is
made active (source lines 447-450); if no tab remains, `activeTabId`
becomes `null`. -/
def closeTab (destroyAvailable destroyFails : Bool) (tabId : String)
    (s : MgrState) : MgrState × List String :=
  let cleaned :=
    match mapLookup s.sessionIds tabId with
    | some _ =>
        if destroyAvailable then
          (mapDelete s.sessionIds tabId,
           if destroyFails then
             ["[TabbedGhosttyTerminal] Failed to destroy session"]
           else [])
        else (s.sessionIds, [])
    | none => (s.sessionIds, [])
  let newTabs := s.tabs.filter (fun t => t.id != tabId)
  if s.activeTabId = some tabId ∧ 0 < newTabs.length then
    ({ tabs := setLastActive newTabs
       activeTabId := (newTabs.getLast?).map (fun t => t.id)
       sessionIds := cleaned.1 }, cleaned.2)
  else if newTabs.length = 0 then
    ({ tabs := newTabs, activeTabId := none, sessionIds := cleaned.1 }, cleaned.2)
  else
    ({ s with tabs := newTabs, sessionIds := cleaned.1 }, cleaned.2)

/-- Resolution of the asynchronous `createTerminalSession` call for a tab:
`initSession` checks its `mounted` liveness flag (source line 81) before
calling `onSessionCreated` = `handleSessionCreated` (source lines 463-465),
which adds the map entry. A `TerminalTabContent` is mounted exactly while
its tab is in `tabs` (it is rendered per tab with `key={tab.id}`, and the
effect cleanup at source lines 99-101 clears `mounted` on unmount), so the
entry is added iff the tab still exists. -/
def onSessionCreatedResolved (tabId newSessionId : String) (s : MgrState) : MgrState :=
  if tabId ∈ s.tabs.map (fun t => t.id) then
    { s with sessionIds := mapSet s.sessionIds tabId newSessionId }
  else s

/-- The panel state including the keyboard re-entrancy lock
`isCreatingTabRef` (source line 327). -/
structure PanelState where
  mgr : MgrState
  isCreatingTab : Bool
deriving Repr, DecidableEq

/-- The Cmd/Ctrl+T branch of `handleKeyDown` (source lines 486-497): if
the lock is held the trigger is discarded; otherwise the lock is taken and
`addNewTab()` runs with no arguments. -/
def keydownNewTab (newId directory : String) (s : PanelState) : PanelState :=
  if s.isCreatingTab then s
  else
    { mgr := addNewTab newId none none none directory s.mgr
      isCreatingTab := true }

/-- The `setTimeout` of 500ms that releases the re-entrancy lock (source
lines 493-495). Two triggers are "within the lock window" when this step
does not occur between them. -/
def lockWindowExpires (s : PanelState) : PanelState :=
  { s with isCreatingTab := false }

/-- The `+` tab-bar button and the empty-state `New Terminal` button
(source lines 648 and 717) call `addNewTab()` directly, without reading or
writing `isCreatingTabRef`. -/
def buttonClickNewTab (newId directory : String) (s : PanelState) : PanelState :=
  { s with mgr := addNewTab newId none none none directory s.mgr }

/-- Ids of the tabs whose `isActive` flag is set. -/
def activeIds (tabs : List TerminalTab) : List String :=
  (tabs.filter (fun t => t.isActive)).map (fun t => t.id)

/-- Tab-manager states reachable through the operations of the component,
invoked the way the component invokes them: `addNewTab` with a fresh
`Date.now()` id, `switchTab` with the id of an existing tab (tab clicks
and Cmd+digit both pass one), `closeTab` and session-creation resolution
with anything, and `restoreSessions` with distinct session ids (the host
directory lists each session once) and caller-supplied initial tabs that
have distinct, nonempty ids and exactly one active tab. -/
inductive Reachable : MgrState → Prop where
  | init : Reachable { tabs := [], activeTabId := none, sessionIds := [] }
  | add (newId : String) (label command targetDirectory : Option String)
      (directory : String) (s : MgrState) (h : Reachable s)
      (hfresh : newId ∉ s.tabs.map (fun t => t.id)) :
      Reachable (addNewTab newId label command targetDirectory directory s)
  | switch (tabId : String) (s : MgrState) (h : Reachable s)
      (hmem : tabId ∈ s.tabs.map (fun t => t.id)) :
      Reachable (switchTab tabId s)
  | close (destroyAvailable destroyFails : Bool) (tabId : String) (s : MgrState)
      (h : Reachable s) :
      Reachable (closeTab destroyAvailable destroyFails tabId s).1
  | created (tabId sid : String) (s : MgrState) (h : Reachable s) :
      Reachable (onSessionCreatedResolved tabId sid s)
  | restore (terminalContext directory : String) (showAllTerminals : Bool)
      (initialTabs : List TerminalTab) (sessions : List TerminalSessionInfo)
      (s : MgrState) (h : Reachable s)
      (hsess : (sessions.map (fun x => x.id)).Nodup)
      (htabs : (initialTabs.map (fun t => t.id)).Nodup)
      (hactive : initialTabs ≠ [] → ∃ aid, aid ≠ "" ∧ activeIds initialTabs = [aid]) :
      Reachable (restoreSessions terminalContext directory showAllTerminals
        initialTabs sessions s)

/-- The tab-manager invariant: tab ids are distinct, and when tabs exist,
`activeTabId` names a tab and exactly that tab has `isActive = true`. -/
def Inv (s : MgrState) : Prop :=
  (s.tabs.map (fun t => t.id)).Nodup ∧
  (s.tabs ≠ [] → ∃ aid, s.activeTabId = some aid ∧ activeIds s.tabs = [aid])

/-! ## GhosttyTerminal (src/src/panels/GhosttyTerminal.tsx)

The single-terminal panel. Its React state is the record below; its three
event handlers (`handleData`, `handleExit`, `handleOwnershipLost`) are the
cases of `ghosttyStep`. Effect subscriptions are modelled by the guards
the effects themselves use: the `terminal:data`/`terminal:exit` handlers
are registered while `sessionId && shouldRenderTerminal` (source lines
305-306 and 325-326), the `terminal:ownershipLost` handler while
`sessionId` is set (source lines 183-184 and 200). -/

/-- React state of `GhosttyTerminal`, plus two observation logs:
`written` records every `terminalInstance.write` performed for incoming
data, `sentInput` every `writeToTerminal` performed for user keystrokes.
`termMounted` models `terminalInstanceRef.current !== null`. -/
structure GhosttyState where
  sessionId : Option String
  error : Option String
  isOwned : Bool
  ownedByWindowId : Option Nat
  canTakeControl : Bool
  shouldRenderTerminal : Bool
  isTransitioning : Bool
  termMounted : Bool
  written : List String
  sentInput : List String
deriving Repr, DecidableEq

/-- The host push events consumed by the panels:
`terminal:data{sessionId,data}`, `terminal:exit{sessionId,exitCode}`,
`terminal:ownershipLost{sessionId,newOwnerWindowId}`. -/
inductive TerminalEvent where
  | data (sessionId : String) (payload : String)
  | exit (sessionId : String) (exitCode : Nat)
  | ownershipLost (sessionId : String) (newOwnerWindowId : Option Nat)
deriving Repr, DecidableEq

/-- The `terminal:data`/`terminal:exit` subscription guard of
`GhosttyTerminal` (source line 306: the effect returns early unless
`sessionId && shouldRenderTerminal`). -/
def dataExitSubscribed (s : GhosttyState) : Bool :=
  s.sessionId.isSome && s.shouldRenderTerminal

/-- The `terminal:ownershipLost` subscription guard of `GhosttyTerminal`
(source line 184: the effect returns early unless `sessionId`). -/
def ownershipLostSubscribed (s : GhosttyState) : Bool :=
  s.sessionId.isSome

/-- React effect reconciliation for the terminal-UI effect (source lines
212-302): the Ghostty terminal instance exists exactly while `sessionId`
is set and `shouldRenderTerminal` holds; when `shouldRenderTerminal`
drops, the effect cleanup disposes the instance (source lines 291-301). -/
def reconcileEffects (s : GhosttyState) : GhosttyState :=
  { s with termMounted := s.sessionId.isSome && s.shouldRenderTerminal }

/-- One push event processed by `GhosttyTerminal`:
`handleData` (source lines 308-316) writes to the renderer when the
instance exists, the session matches, and the data is truthy;
`handleExit` (source lines 319-323) sets the error banner text, which
includes the exit code, and changes nothing else;
`handleOwnershipLost` (source lines 186-198) marks the session as owned
elsewhere, enables "take control", and stops rendering, which unmounts
the terminal instance. -/
def ghosttyStep (s : GhosttyState) (e : TerminalEvent) : GhosttyState :=
  match e with
  | .data sid d =>
      if dataExitSubscribed s = true ∧ s.termMounted = true ∧
          s.sessionId = some sid ∧ d ≠ "" then
        { s with written := s.written ++ [d] }
      else s
  | .exit sid code =>
      if dataExitSubscribed s = true ∧ s.sessionId = some sid then
        { s with error := some ("Terminal process exited with code " ++ toString code) }
      else s
  | .ownershipLost sid newOwner =>
      if ownershipLostSubscribed s = true ∧ s.sessionId = some sid then
        reconcileEffects
          { s with
              isOwned := true
              ownedByWindowId := jsNumOrNull newOwner
              canTakeControl := true
              shouldRenderTerminal := false }
      else s

/-- User keystrokes: `term.onData` fires only while the terminal instance
exists, and forwards to `writeToTerminal` only when a session id is set
(source lines 241-249). -/
def ghosttyUserInput (s : GhosttyState) (input : String) : GhosttyState :=
  if s.termMounted = true ∧ s.sessionId.isSome = true then
    { s with sentInput := s.sentInput ++ [input] }
  else s

/-- `showOverlay` of the render (source line 358). -/
def showsOverlay (s : GhosttyState) : Bool :=
  !s.shouldRenderTerminal || s.isTransitioning

/-- The "Take Control Here" affordance is rendered when the overlay is
shown and the panel is not in its transitioning state (source lines
382-430). -/
def showsTakeControl (s : GhosttyState) : Bool :=
  showsOverlay s && !s.isTransitioning

/-! ## TerminalTabContent (src/src/panels/TabbedGhosttyTerminal.tsx)

The per-tab child component. It receives only `actions` — no push-event
emitter — and its sole data channel is `actions.onTerminalData(sessionId,
cb)` (source lines 186-216). It registers no handler for
`terminal:ownershipLost` or `terminal:exit`, so those notifications leave
its state untouched. -/

/-- React state of `TerminalTabContent`, with the same observation logs
as `GhosttyState`. `claimed` records each `claimTerminalOwnership` call
the component issues. -/
structure TabContentState where
  localSessionId : Option String
  isInitialized : Bool
  error : Option String
  claimed : List String
  termMounted : Bool
  written : List String
  sentInput : List String
deriving Repr, DecidableEq

/-- The restored-session branch of `initSession` (source lines 57-67):
adopt the session id, mark initialized, and claim ownership of it. -/
def tabContentInitRestored (sid : String) (s : TabContentState) : TabContentState :=
  { s with
      localSessionId := some sid
      isInitialized := true
      claimed := s.claimed ++ [sid] }

/-- One push event as seen by `TerminalTabContent`: the `onTerminalData`
callback (source lines 193-197, registered while `localSessionId &&
isInitialized`) writes incoming data when the terminal instance exists;
there is no handler for `terminal:exit` or `terminal:ownershipLost`, so
those events change nothing. -/
def tabContentStep (s : TabContentState) (e : TerminalEvent) : TabContentState :=
  match e with
  | .data sid d =>
      if s.isInitialized = true ∧ s.localSessionId = some sid ∧ s.termMounted = true then
        { s with written := s.written ++ [d] }
      else s
  | .exit _ _ => s
  | .ownershipLost _ _ => s

/-- User keystrokes in a tab: `term.onData` forwards to `writeToTerminal`
while the instance exists and `localSessionId` is set (source lines
133-137). -/
def tabContentUserInput (s : TabContentState) (input : String) : TabContentState :=
  if s.termMounted = true ∧ s.localSessionId.isSome = true then
    { s with sentInput := s.sentInput ++ [input] }
  else s

/-! ## Concrete states used by the counterexamples and witnesses -/

/-- The empty tab-manager state. -/
def mgr0 : MgrState := { tabs := [], activeTabId := none, sessionIds := [] }

/-- Tab `A`. -/
def tabA : TerminalTab := { id := "A", label := "a", directory := "/d", isActive := true }

/-- Tab `B`. -/
def tabB : TerminalTab := { id := "B", label := "b", directory := "/d", isActive := false }

/-- Tab `C`. -/
def tabC : TerminalTab := { id := "C", label := "c", directory := "/d", isActive := false }

/-- Three tabs with the first one active, the active one to be closed. -/
def cexC1 : MgrState :=
  { tabs := [tabA, tabB, tabC], activeTabId := some "A", sessionIds := [] }

/-- A caller-supplied initial tab whose `isActive` flag is `false`. -/
def badInitialTab : TerminalTab :=
  { id := "tab-1", label := "t", directory := "/demo", isActive := false }

/-- The two-session scenario of the spec: one session in the configured
context `ws:repoA`, one in another repository's context. -/
def demoAB : List TerminalSessionInfo :=
  [{ id := "sA", cwd := "/repoA", context := some "ws:repoA:term1" },
   { id := "sB", cwd := "/repoB", context := some "ws:repoB:term1" }]

/-- A single listed session whose context does not extend `ws:repoA`. -/
def demoOther : List TerminalSessionInfo :=
  [{ id := "s1", cwd := "/x", context := some "other:ctx" }]

/-- Panel state with no tabs and the re-entrancy lock free. -/
def panelUnlocked : PanelState := { mgr := mgr0, isCreatingTab := false }

/-- Panel state with no tabs and the re-entrancy lock held. -/
def panelLocked : PanelState := { mgr := mgr0, isCreatingTab := true }

/-- Tab-manager state whose single tab `A` has a bound session. -/
def mgrBound : MgrState :=
  { tabs := [tabA, tabB], activeTabId := some "A", sessionIds := [("A", "sess-1")] }

/-- A `GhosttyTerminal` after successful initialization for session
`s1`: session created, ownership claimed, terminal mounted. -/
def ghosttyReady : GhosttyState :=
  { sessionId := some "s1"
    error := none
    isOwned := false
    ownedByWindowId := none
    canTakeControl := true
    shouldRenderTerminal := true
    isTransitioning := false
    termMounted := true
    written := []
    sentInput := [] }

/-- A `TerminalTabContent` mounted for the restored session `s1`: it has
claimed ownership of `s1` via `initSession`. -/
def tabContentReady : TabContentState :=
  tabContentInitRestored "s1"
    { localSessionId := none
      isInitialized := false
      error := none
      claimed := []
      termMounted := true
      written := []
      sentInput := [] }

end GhosttyPanel

namespace GhosttyPanel

/-! ## List-level helper lemmas -/

theorem activeIds_append (l1 l2 : List TerminalTab) :
    activeIds (l1 ++ l2) = activeIds l1 ++ activeIds l2 := by
  simp [activeIds, List.filter_append]

theorem activeIds_deactivate (l : List TerminalTab) :
    activeIds (l.map fun t => { t with isActive := false }) = [] := by
  induction l with
  | nil => rfl
  | cons t rest ih => simp [activeIds, List.filter_cons]

theorem activeIds_switch_not_mem (tabId : String) (l : List TerminalTab)
    (h : tabId ∉ l.map (fun t => t.id)) :
    activeIds (l.map fun t => { t with isActive := t.id == tabId }) = [] := by
  induction l with
  | nil => rfl
  | cons t rest ih =>
    simp only [List.map_cons, List.mem_cons, not_or] at h
    have ht : (t.id == tabId) = false := by
      simp [beq_iff_eq]
      exact fun hh => h.1 (by rw [hh])
    simpa [activeIds, List.filter_cons, ht] using ih h.2

theorem activeIds_switch (tabId : String) (l : List TerminalTab)
    (hnd : (l.map (fun t => t.id)).Nodup) (hmem : tabId ∈ l.map (fun t => t.id)) :
    activeIds (l.map fun t => { t with isActive := t.id == tabId }) = [tabId] := by
  induction l with
  | nil => simp at hmem
  | cons t rest ih =>
    simp only [List.map_cons, List.nodup_cons] at hnd
    rcases List.mem_cons.mp hmem with h1 | h2
    · have h1x : tabId = t.id := h1
      subst h1x
      have hz := activeIds_switch_not_mem t.id rest hnd.1
      simp [activeIds, List.filter_cons] at hz ⊢
      exact hz
    · have ht : (t.id == tabId) = false := by
        simp [beq_iff_eq]
        intro hh
        exact hnd.1 (hh ▸ h2)
      simpa [activeIds, List.filter_cons, ht] using ih hnd.2 h2

theorem activeIds_filter_ne (cid : String) (l : List TerminalTab) :
    activeIds (l.filter fun t => t.id != cid) = (activeIds l).filter (fun x => x != cid) := by
  induction l with
  | nil => rfl
  | cons t rest ih =>
    by_cases hid : t.id = cid
    · by_cases ha : t.isActive <;> simp [activeIds, List.filter_cons, hid, ha] <;>
        simpa [activeIds] using ih
    · by_cases ha : t.isActive <;> simp [activeIds, List.filter_cons, hid, ha] <;>
        simpa [activeIds] using ih

theorem setLastActive_map_id (l : List TerminalTab) :
    (setLastActive l).map (fun t => t.id) = l.map (fun t => t.id) := by
  induction l with
  | nil => rfl
  | cons t rest ih =>
    cases rest with
    | nil => simp [setLastActive]
    | cons u rs => simpa [setLastActive] using ih

theorem activeIds_setLastActive (l : List TerminalTab)
    (hl : activeIds l = []) (hne : l ≠ []) :
    activeIds (setLastActive l) = [(l.getLast hne).id] := by
  induction l with
  | nil => exact absurd rfl hne
  | cons t rest ih =>
    cases rest with
    | nil =>
      simp [setLastActive, activeIds, List.filter_cons]
    | cons u rs =>
      have hsplit : activeIds (u :: rs) = [] ∧ t.isActive = false := by
        by_cases ha : t.isActive
        · exfalso; simp [activeIds, List.filter_cons, ha] at hl
        · constructor
          · simpa [activeIds, List.filter_cons, ha] using hl
          · simpa using ha
      have := ih hsplit.1 (by simp)
      simp [setLastActive, activeIds, List.filter_cons, hsplit.2] at this ⊢
      simpa [List.getLast_cons] using this

theorem mkRestoredTabs_map_id (dir : String) (ss : List TerminalSessionInfo) :
    ∀ i, (mkRestoredTabs dir i ss).map (fun t => t.id)
      = ss.map (fun x => "tab-restored-" ++ x.id) := by
  induction ss with
  | nil => intro i; rfl
  | cons x rest ih => intro i; simpa [mkRestoredTabs] using ih (i + 1)

theorem activeIds_mkRestoredTabs_pos (dir : String) (ss : List TerminalSessionInfo) :
    ∀ i, i ≠ 0 → activeIds (mkRestoredTabs dir i ss) = [] := by
  induction ss with
  | nil => intro i _; rfl
  | cons x rest ih =>
    intro i hi
    have hb : (i == 0) = false := by simpa using hi
    simpa [mkRestoredTabs, activeIds, List.filter_cons, hb] using ih (i + 1) (by simp)

theorem activeIds_mkRestoredTabs_zero (dir : String) (x : TerminalSessionInfo)
    (rest : List TerminalSessionInfo) :
    activeIds (mkRestoredTabs dir 0 (x :: rest)) = ["tab-restored-" ++ x.id] := by
  simpa [mkRestoredTabs, activeIds, List.filter_cons] using
    activeIds_mkRestoredTabs_pos dir rest 1 (by simp)

theorem find?_eq_filter_head? (p : TerminalTab → Bool) (l : List TerminalTab) :
    l.find? p = (l.filter p).head? := by
  induction l with
  | nil => rfl
  | cons t rest ih =>
    by_cases h : p t
    · simp [List.find?_cons_of_pos _ h, List.filter_cons, h]
    · rw [List.find?_cons_of_neg rest h, List.filter_cons, if_neg h]
      exact ih

theorem map_eq_singleton {α β : Type} {f : α → β} {l : List α} {b : β}
    (h : l.map f = [b]) : ∃ a, l = [a] ∧ f a = b := by
  cases l with
  | nil => simp at h
  | cons x xs =>
    cases xs with
    | nil =>
      simp at h
      exact ⟨x, rfl, h⟩
    | cons y ys => simp at h

theorem restoredPre_injective : Function.Injective (fun x : String => "tab-restored-" ++ x) := by
  intro a b h
  have h2 : ("tab-restored-" ++ a).data = ("tab-restored-" ++ b).data := congrArg String.data h
  rw [String.data_append, String.data_append] at h2
  exact String.ext (List.append_cancel_left h2)

theorem restoredPre_ne_empty (x : String) : ("tab-restored-" ++ x) ≠ "" := by
  intro h
  have h2 := congrArg String.data h
  rw [String.data_append] at h2
  simp at h2

theorem map_id_set_active (f : TerminalTab → Bool) (l : List TerminalTab) :
    (l.map fun t => { t with isActive := f t }).map (fun t => t.id)
      = l.map (fun t => t.id) := by
  simp [List.map_map]

theorem filter_ne_nil_of_ne_nil {l : List TerminalTab} {p : TerminalTab → Bool}
    (h : l.filter p ≠ []) : l ≠ [] := by
  intro hl
  rw [hl] at h
  exact h rfl

theorem not_mem_filter_ne_self (tabId : String) (l : List TerminalTab) :
    tabId ∉ (l.filter (fun t => t.id != tabId)).map (fun t => t.id) := by
  intro h
  obtain ⟨t, ht, hid⟩ := List.mem_map.mp h
  have hmem := List.mem_filter.mp ht
  have : t.id ≠ tabId := by simpa [bne_iff_ne] using hmem.2
  exact this hid

/-! ## Branch characterizations of closeTab -/

theorem closeTab_branchA (da df : Bool) (tabId : String) (s : MgrState)
    (hA : s.activeTabId = some tabId)
    (hpos : 0 < (s.tabs.filter (fun t => t.id != tabId)).length) :
    ((closeTab da df tabId s).1.tabs
        = setLastActive (s.tabs.filter (fun t => t.id != tabId))) ∧
    ((closeTab da df tabId s).1.activeTabId
        = ((s.tabs.filter (fun t => t.id != tabId)).getLast?).map (fun t => t.id)) := by
  simp [closeTab, hA, hpos]

theorem closeTab_branchB (da df : Bool) (tabId : String) (s : MgrState)
    (hnil : s.tabs.filter (fun t => t.id != tabId) = []) :
    (closeTab da df tabId s).1.tabs = [] ∧
    (closeTab da df tabId s).1.activeTabId = none := by
  have hlen : (s.tabs.filter (fun t => t.id != tabId)).length = 0 := by rw [hnil]; rfl
  simp [closeTab, hnil, hlen]

theorem closeTab_branchC (da df : Bool) (tabId : String) (s : MgrState)
    (hA : s.activeTabId ≠ some tabId)
    (hpos : 0 < (s.tabs.filter (fun t => t.id != tabId)).length) :
    (closeTab da df tabId s).1.tabs = s.tabs.filter (fun t => t.id != tabId) ∧
    (closeTab da df tabId s).1.activeTabId = s.activeTabId := by
  have hlen : ¬ (s.tabs.filter (fun t => t.id != tabId)).length = 0 := by omega
  simp [closeTab, hA, hlen]

theorem closeTab_tabs_map_id (da df : Bool) (tabId : String) (s : MgrState) :
    (closeTab da df tabId s).1.tabs.map (fun t => t.id)
      = (s.tabs.filter (fun t => t.id != tabId)).map (fun t => t.id) := by
  by_cases hnil : s.tabs.filter (fun t => t.id != tabId) = []
  · rw [(closeTab_branchB da df tabId s hnil).1, hnil]
  · have hpos := List.length_pos.mpr hnil
    by_cases hA : s.activeTabId = some tabId
    · rw [(closeTab_branchA da df tabId s hA hpos).1, setLastActive_map_id]
    · rw [(closeTab_branchC da df tabId s hA hpos).1]

theorem closeTab_sessionIds_of_none (da df : Bool) (tabId : String) (s : MgrState)
    (hnone : mapLookup s.sessionIds tabId = none) :
    (closeTab da df tabId s).1.sessionIds = s.sessionIds := by
  simp only [closeTab, hnone]
  split
  · rfl
  · split
    · rfl
    · rfl

/-! ## Preservation of the invariant -/

theorem inv_addNewTab (newId : String) (label command targetDirectory : Option String)
    (directory : String) (s : MgrState) (hinv : Inv s)
    (hfresh : newId ∉ s.tabs.map (fun t => t.id)) :
    Inv (addNewTab newId label command targetDirectory directory s) := by
  obtain ⟨hnd, _⟩ := hinv
  constructor
  · simp only [addNewTab, List.map_append, map_id_set_active (fun _ => false)]
    simp [List.nodup_append, hnd]
    intro a ha hx
    exact hfresh (hx ▸ List.mem_map_of_mem (fun t => t.id) ha)
  · intro _
    refine ⟨newId, rfl, ?_⟩
    rw [addNewTab]
    show activeIds (List.map _ s.tabs ++ [_]) = [newId]
    rw [activeIds_append, activeIds_deactivate]
    simp [activeIds]

theorem inv_switchTab (tabId : String) (s : MgrState) (hinv : Inv s)
    (hmem : tabId ∈ s.tabs.map (fun t => t.id)) :
    Inv (switchTab tabId s) := by
  obtain ⟨hnd, _⟩ := hinv
  constructor
  · simpa [switchTab, map_id_set_active (fun t => t.id == tabId)] using hnd
  · intro _
    exact ⟨tabId, rfl, activeIds_switch tabId s.tabs hnd hmem⟩

theorem inv_closeTab (da df : Bool) (tabId : String) (s : MgrState) (hinv : Inv s) :
    Inv (closeTab da df tabId s).1 := by
  obtain ⟨hnd, hact⟩ := hinv
  have hndNew : ((s.tabs.filter (fun t => t.id != tabId)).map (fun t => t.id)).Nodup :=
    ((List.filter_sublist s.tabs).map (fun t => t.id)).nodup hnd
  by_cases hnil : s.tabs.filter (fun t => t.id != tabId) = []
  · obtain ⟨ht, ha⟩ := closeTab_branchB da df tabId s hnil
    constructor
    · rw [ht]; exact List.nodup_nil
    · intro hne; exact absurd ht hne
  · have hpos : 0 < (s.tabs.filter (fun t => t.id != tabId)).length :=
      List.length_pos.mpr hnil
    have hsne : s.tabs ≠ [] := filter_ne_nil_of_ne_nil hnil
    obtain ⟨aid0, ha0, hIds⟩ := hact hsne
    by_cases hA : s.activeTabId = some tabId
    · obtain ⟨ht, ha⟩ := closeTab_branchA da df tabId s hA hpos
      have haid0 : aid0 = tabId := by
        rw [hA] at ha0; exact (Option.some.inj ha0).symm
      have hempty : activeIds (s.tabs.filter (fun t => t.id != tabId)) = [] := by
        rw [activeIds_filter_ne, hIds, haid0]
        simp
      constructor
      · rw [ht, setLastActive_map_id]; exact hndNew
      · intro _
        refine ⟨((s.tabs.filter (fun t => t.id != tabId)).getLast hnil).id, ?_, ?_⟩
        · rw [ha, List.getLast?_eq_getLast _ hnil]; rfl
        · rw [ht]
          exact activeIds_setLastActive _ hempty hnil
    · obtain ⟨ht, ha⟩ := closeTab_branchC da df tabId s hA hpos
      have haid0 : aid0 ≠ tabId := by
        intro hx
        exact hA (hx ▸ ha0)
      constructor
      · rw [ht]; exact hndNew
      · intro _
        refine ⟨aid0, by rw [ha]; exact ha0, ?_⟩
        rw [ht, activeIds_filter_ne, hIds]
        simp [haid0]

theorem inv_created (tabId sid : String) (s : MgrState) (hinv : Inv s) :
    Inv (onSessionCreatedResolved tabId sid s) := by
  obtain ⟨hnd, hact⟩ := hinv
  unfold onSessionCreatedResolved
  by_cases h : tabId ∈ s.tabs.map (fun t => t.id) <;> simp [h] <;> exact ⟨hnd, hact⟩

theorem inv_restore (ctx dir : String) (showAll : Bool)
    (initialTabs : List TerminalTab) (sessions : List TerminalSessionInfo)
    (s : MgrState) (hinv : Inv s)
    (hsess : (sessions.map (fun x => x.id)).Nodup)
    (htabs : (initialTabs.map (fun t => t.id)).Nodup)
    (hactive : initialTabs ≠ [] → ∃ aid, aid ≠ "" ∧ activeIds initialTabs = [aid]) :
    Inv (restoreSessions ctx dir showAll initialTabs sessions s) := by
  by_cases hinit : initialTabs = []
  · subst hinit
    cases hx : filterSessions showAll ctx sessions with
    | nil =>
      have : restoreSessions ctx dir showAll [] sessions s = s := by
        simp [restoreSessions, hx]
      rw [this]; exact hinv
    | cons sess rest =>
      have hpos : 0 < (filterSessions showAll ctx sessions).length := by
        rw [hx]; simp
      have hres : restoreSessions ctx dir showAll [] sessions s =
          { tabs := mkRestoredTabs dir 0 (sess :: rest)
            sessionIds := (sess :: rest).foldl
              (fun m session => mapSet m ("tab-restored-" ++ session.id) session.id) []
            activeTabId := jsOrOpt (((mkRestoredTabs dir 0 (sess :: rest)).head?).map
              (fun t => t.id)) none } := by
        simp [restoreSessions, hpos, hx]
      rw [hres]
      have hndf : ((filterSessions showAll ctx sessions).map (fun x => x.id)).Nodup :=
        ((List.filter_sublist sessions).map (fun x => x.id)).nodup hsess
      rw [hx] at hndf
      constructor
      · show ((mkRestoredTabs dir 0 (sess :: rest)).map (fun t => t.id)).Nodup
        rw [mkRestoredTabs_map_id]
        have h2 : ((sess :: rest).map (fun x => x.id)).map
            (fun y => "tab-restored-" ++ y) |>.Nodup :=
          hndf.map restoredPre_injective
        simpa [List.map_map] using h2
      · intro _
        refine ⟨"tab-restored-" ++ sess.id, ?_, ?_⟩
        · show jsOrOpt (((mkRestoredTabs dir 0 (sess :: rest)).head?).map (fun t => t.id)) none
            = some ("tab-restored-" ++ sess.id)
          simp [mkRestoredTabs, jsOrOpt, restoredPre_ne_empty sess.id]
        · exact activeIds_mkRestoredTabs_zero dir sess rest
  · have hlen : 0 < initialTabs.length := List.length_pos.mpr hinit
    have hcond : ¬ (0 < (filterSessions showAll ctx sessions).length ∧
        initialTabs.length = 0) := by
      rintro ⟨-, h0⟩
      exact hinit (List.length_eq_zero.mp h0)
    have hres : restoreSessions ctx dir showAll initialTabs sessions s =
        { s with
            tabs := initialTabs
            activeTabId :=
              jsOrOpt ((initialTabs.find? (fun t => t.isActive)).map (fun t => t.id))
                (jsOrOpt ((initialTabs.head?).map (fun t => t.id)) none) } := by
      rw [restoreSessions]
      rw [if_neg hcond, if_pos hlen]
    rw [hres]
    obtain ⟨aid, haidne, hacts⟩ := hactive hinit
    obtain ⟨a, hfilter, haid⟩ := map_eq_singleton hacts
    have hfind : initialTabs.find? (fun t => t.isActive) = some a := by
      rw [find?_eq_filter_head?, hfilter]; rfl
    constructor
    · exact htabs
    · intro _
      refine ⟨aid, ?_, hacts⟩
      show jsOrOpt ((Option.map (fun t => t.id) (initialTabs.find? fun t => t.isActive)))
          _ = some aid
      rw [hfind]
      simp [jsOrOpt, haid, haidne]

theorem reachable_inv {s : MgrState} (h : Reachable s) : Inv s := by
  induction h with
  | init => exact ⟨List.nodup_nil, fun hne => absurd rfl hne⟩
  | add newId label command targetDirectory directory s h hfresh ih =>
      exact inv_addNewTab newId label command targetDirectory directory s ih hfresh
  | switch tabId s h hmem ih => exact inv_switchTab tabId s ih hmem
  | close da df tabId s h ih => exact inv_closeTab da df tabId s ih
  | created tabId sid s h ih => exact inv_created tabId sid s ih
  | restore ctx dir showAll initialTabs sessions s h hsess htabs hactive ih =>
      exact inv_restore ctx dir showAll initialTabs sessions s ih hsess htabs hactive

end GhosttyPanel

namespace GhosttyPanel

/-! ## Map lemmas for the session map -/

theorem mapLookup_eq_none_of_not_mem (m : List (String × String)) (k : String)
    (h : k ∉ m.map Prod.fst) : mapLookup m k = none := by
  induction m with
  | nil => rfl
  | cons kv rest ih =>
    obtain ⟨k0, v0⟩ := kv
    simp only [List.map_cons, List.mem_cons, not_or] at h
    have hne : ¬ k0 = k := fun hh => h.1 hh.symm
    simp [mapLookup, hne, ih h.2]

theorem mapLookup_mapDelete_self (m : List (String × String)) (k : String)
    (hnd : (m.map Prod.fst).Nodup) : mapLookup (mapDelete m k) k = none := by
  induction m with
  | nil => rfl
  | cons kv rest ih =>
    obtain ⟨k0, v0⟩ := kv
    simp only [List.map_cons, List.nodup_cons] at hnd
    by_cases hk : k0 = k
    · subst hk
      simp only [mapDelete, if_pos rfl]
      exact mapLookup_eq_none_of_not_mem rest k0 hnd.1
    · simp [mapDelete, hk, mapLookup, ih hnd.2]

theorem mgrState_eq {a b : MgrState} (ht : a.tabs = b.tabs)
    (ha : a.activeTabId = b.activeTabId) (hs : a.sessionIds = b.sessionIds) :
    a = b := by
  cases a; cases b; simp_all

theorem closeTab_sessionIds_of_some (df : Bool) (tabId sid : String) (s : MgrState)
    (hbound : mapLookup s.sessionIds tabId = some sid) :
    (closeTab true df tabId s).1.sessionIds = mapDelete s.sessionIds tabId ∧
    (closeTab true df tabId s).2 =
      (if df then ["[TabbedGhosttyTerminal] Failed to destroy session"] else []) := by
  simp only [closeTab, hbound]
  split
  · constructor <;> rfl
  · split
    · constructor <;> rfl
    · constructor <;> rfl

/-! ## C1 — closing the active tab -/

/-- C1 counterexample: in the 3-tab set `[A, B, C]` with the active tab
`A` at index `i = 0`, closing `A` does not activate the tab now at index
`max(0, i-1) = 0` (that tab is `B` and stays inactive): the code
activates the LAST remaining tab `C`. -/
theorem closeTab_previous_index_counterexample :
    (((closeTab true false "A" cexC1).1.tabs.head?).map (fun t => t.id) = some "B") ∧
    (((closeTab true false "A" cexC1).1.tabs.head?).map (fun t => t.isActive)
        = some false) ∧
    ((closeTab true false "A" cexC1).1.activeTabId = some "C") := by
  decide

/-- C1 (amended): closing the active tab of an N>1 tab set removes that
tab (order preserved) and activates the LAST remaining tab — the tab
originally at the greatest index other than the closed one — not the tab
at `max(0, i-1)`. The two agree only when the closed tab was itself
last. -/
theorem closeTab_activates_last_remaining (da df : Bool)
    (front back : List TerminalTab) (c : TerminalTab) (s : MgrState)
    (htabs : s.tabs = front ++ c :: back)
    (hac : s.activeTabId = some c.id)
    (hfront : ∀ t ∈ front, t.id ≠ c.id)
    (hback : ∀ t ∈ back, t.id ≠ c.id)
    (hrest : activeIds (front ++ back) = [])
    (hne : front ++ back ≠ []) :
    ((closeTab da df c.id s).1.tabs.map (fun t => t.id)
        = (front ++ back).map (fun t => t.id)) ∧
    ((closeTab da df c.id s).1.activeTabId = some (((front ++ back).getLast hne).id)) ∧
    (activeIds (closeTab da df c.id s).1.tabs = [((front ++ back).getLast hne).id]) := by
  have hfilter : s.tabs.filter (fun t => t.id != c.id) = front ++ back := by
    rw [htabs, List.filter_append]
    have h1 : front.filter (fun t => t.id != c.id) = front :=
      List.filter_eq_self.mpr (fun t ht => by
        simpa [bne_iff_ne] using hfront t ht)
    have h2 : (c :: back).filter (fun t => t.id != c.id) = back := by
      rw [List.filter_cons]
      simp only [bne_self_eq_false, Bool.false_eq_true, if_false]
      exact List.filter_eq_self.mpr (fun t ht => by
        simpa [bne_iff_ne] using hback t ht)
    rw [h1, h2]
  have hpos : 0 < (s.tabs.filter (fun t => t.id != c.id)).length := by
    rw [hfilter]
    exact List.length_pos.mpr hne
  obtain ⟨ht, ha⟩ := closeTab_branchA da df c.id s hac hpos
  rw [hfilter] at ht ha
  refine ⟨?_, ?_, ?_⟩
  · rw [ht, setLastActive_map_id]
  · rw [ha, List.getLast?_eq_getLast _ hne]; rfl
  · rw [ht]
    exact activeIds_setLastActive _ hrest hne

/-- C1 witness: closing active tab `A` of `[A, B, C]` removes it and
makes `C`, the last remaining tab, the active tab. -/
theorem closeTab_activates_last_remaining_witness :
    ((closeTab true false "A" cexC1).1.tabs.map (fun t => t.id) = ["B", "C"]) ∧
    ((closeTab true false "A" cexC1).1.activeTabId = some "C") := by
  have h := closeTab_activates_last_remaining true false [] [tabB, tabC] tabA cexC1
    rfl rfl (by simp) (by decide) (by decide) (by decide)
  exact ⟨h.1, h.2.1⟩

/-! ## C2 — single active tab invariant -/

/-- C2 counterexample: `restoreSessions` installs caller-supplied initial
tabs verbatim, so restoring with a non-empty initial tab set in which no
tab is marked active yields a non-empty tab set with zero active tabs. -/
theorem restore_initial_tabs_zero_active_counterexample :
    ((restoreSessions "terminal:my-project" "/demo" false [badInitialTab] [] mgr0).tabs
        ≠ []) ∧
    (((restoreSessions "terminal:my-project" "/demo" false [badInitialTab] [] mgr0).tabs.filter
        (fun t => t.isActive)).length = 0) := by
  decide

/-- C2 (amended): in every state reachable through `addNewTab` (fresh
id), `switchTab` (existing tab id), `closeTab`, session-creation
resolution, and `restoreSessions` — where every caller-supplied initial
tab set installed by a restore has distinct nonempty ids and exactly one
active tab — a non-empty tab set has exactly one tab with
`isActive = true`. The claim as stated fails because restore copies
arbitrary initial `isActive` flags (see the counterexample). -/
theorem single_active_tab_invariant (s : MgrState) (h : Reachable s)
    (hne : s.tabs ≠ []) :
    (s.tabs.filter (fun t => t.isActive)).length = 1 := by
  obtain ⟨-, hact⟩ := reachable_inv h
  obtain ⟨aid, -, hIds⟩ := hact hne
  have := congrArg List.length hIds
  simpa [activeIds] using this

/-- C2 witness: after adding one tab to the empty state, the tab set is
non-empty and exactly one tab is active. -/
theorem single_active_tab_invariant_witness :
    ((addNewTab "tab-1" none none none "/demo/repo" mgr0).tabs ≠ []) ∧
    (((addNewTab "tab-1" none none none "/demo/repo" mgr0).tabs.filter
        (fun t => t.isActive)).length = 1) :=
  ⟨by decide,
   single_active_tab_invariant _
     (Reachable.add "tab-1" none none none "/demo/repo" mgr0
       (Reachable.init : Reachable mgr0) (by simp [mgr0]))
     (by decide)⟩

/-! ## C3 — no fallback tab after empty restoration -/

/-- C3 counterexample: with one listed session that fails the context
filter and no caller-supplied initial tabs, restoration leaves the tab
set EMPTY — no fresh fallback tab bound to the default directory is
created. -/
theorem restore_empty_no_fallback_counterexample :
    (restoreSessions "ws:repoA" "/default" false [] demoOther mgr0).tabs = [] := by
  decide

/-- C3 (amended): when zero listed sessions survive the context filter
and the caller supplied no initial tabs, `restoreSessions` changes
nothing at all: no fallback tab is created, and starting from the empty
state the tab set stays empty (the component then renders its empty
state with a manual "New Terminal" button instead). -/
theorem restore_zero_survivors_no_fallback (ctx dir : String) (showAll : Bool)
    (sessions : List TerminalSessionInfo) (s : MgrState)
    (hempty : filterSessions showAll ctx sessions = []) :
    restoreSessions ctx dir showAll [] sessions s = s := by
  simp [restoreSessions, hempty]

/-- C3 witness: the session tagged `other:ctx` fails the `ws:repoA`
filter and restoration is a no-op on the empty state. -/
theorem restore_zero_survivors_no_fallback_witness :
    (filterSessions false "ws:repoA" demoOther = []) ∧
    (restoreSessions "ws:repoA" "/default" false [] demoOther mgr0 = mgr0) :=
  ⟨by decide, restore_zero_survivors_no_fallback "ws:repoA" "/default" false
    demoOther mgr0 (by decide)⟩

/-! ## C4 — context prefix filter -/

/-- C4: restoration keeps exactly the listed sessions whose context
string has the configured context as a prefix, keeps every listed session
when `showAllTerminals` is set, and on the spec's scenario (context
`ws:repoA`, sessions tagged `ws:repoA:term1` and `ws:repoB:term1`)
restores exactly one tab, or exactly two with `showAllTerminals=true`. -/
theorem restore_context_filter_spec :
    (∀ (ctx : String) (sessions : List TerminalSessionInfo) (sess : TerminalSessionInfo),
      sess ∈ filterSessions false ctx sessions ↔
        sess ∈ sessions ∧ ∃ c, sess.context = some c ∧ strStartsWith c ctx = true) ∧
    (∀ (ctx : String) (sessions : List TerminalSessionInfo),
      filterSessions true ctx sessions = sessions) ∧
    ((restoreSessions "ws:repoA" "/d" false [] demoAB mgr0).tabs.length = 1) ∧
    ((restoreSessions "ws:repoA" "/d" true [] demoAB mgr0).tabs.length = 2) := by
  refine ⟨?_, ?_, by decide, by decide⟩
  · intro ctx sessions sess
    rw [filterSessions, List.mem_filter]
    constructor
    · rintro ⟨hmem, hp⟩
      refine ⟨hmem, ?_⟩
      cases hc : sess.context with
      | none => rw [hc] at hp; simp at hp
      | some c =>
        rw [hc] at hp
        simp at hp
        exact ⟨c, rfl, hp⟩
    · rintro ⟨hmem, c, hc, hsw⟩
      refine ⟨hmem, ?_⟩
      rw [hc]
      simpa using hsw
  · intro ctx sessions
    simp [filterSessions]

/-! ## C5 — exit handling -/

/-- C5 counterexample: after `terminal:exit{s1, 0}` the error state shows
the exit code, but a subsequent `terminal:data` event is still written to
the renderer — the exit notification does not stop further writes. -/
theorem ghostty_exit_then_write_counterexample :
    ((ghosttyStep ghosttyReady (.exit "s1" 0)).error
        = some "Terminal process exited with code 0") ∧
    ((ghosttyStep (ghosttyStep ghosttyReady (.exit "s1" 0)) (.data "s1" "out")).written
        = ["out"]) := by
  decide

/-- C5 (amended): for a bound session, an exit notification carrying an
exit code puts `GhosttyTerminal` into an error-displaying state whose
message includes the exit code; however, the data subscription and the
terminal instance are NOT torn down, so further data events for the
session are still written to the renderer. -/
theorem ghostty_exit_error_writes_continue (s : GhosttyState) (sid d : String)
    (code : Nat) (hsid : s.sessionId = some sid)
    (hrender : s.shouldRenderTerminal = true) (hmount : s.termMounted = true)
    (hd : d ≠ "") :
    ((ghosttyStep s (.exit sid code)).error
        = some ("Terminal process exited with code " ++ toString code)) ∧
    ((ghosttyStep (ghosttyStep s (.exit sid code)) (.data sid d)).written
        = s.written ++ [d]) := by
  have hsub : dataExitSubscribed s = true := by
    simp [dataExitSubscribed, hsid, hrender]
  have hstep : ghosttyStep s (.exit sid code) =
      { s with error := some ("Terminal process exited with code " ++ toString code) } := by
    simp [ghosttyStep, hsub, hsid]
  refine ⟨by rw [hstep], ?_⟩
  rw [hstep]
  simp [ghosttyStep, dataExitSubscribed, hsid, hrender, hmount, hd]

/-- C5 witness: the ready panel receives exit code 2 and then data
`"bye"`; the data is still written. -/
theorem ghostty_exit_error_writes_continue_witness :
    ((ghosttyStep ghosttyReady (.exit "s1" 2)).error
        = some "Terminal process exited with code 2") ∧
    ((ghosttyStep (ghosttyStep ghosttyReady (.exit "s1" 2)) (.data "s1" "bye")).written
        = ["bye"]) := by
  have h := ghostty_exit_error_writes_continue ghosttyReady "s1" "bye" 2
    rfl rfl rfl (by decide)
  exact ⟨h.1, by simpa [ghosttyReady] using h.2⟩

/-! ## C6 — keyboard re-entrancy lock -/

/-- C6: with the re-entrancy lock free, two Cmd/Ctrl+T triggers fired
within the 500ms lock window (no `lockWindowExpires` between them) create
exactly one new tab, and the second trigger is discarded entirely (the
state does not change). -/
theorem keyboard_new_tab_lock_single_creation (s : PanelState) (id1 id2 dir : String)
    (h : s.isCreatingTab = false) :
    ((keydownNewTab id2 dir (keydownNewTab id1 dir s)).mgr.tabs.length
        = s.mgr.tabs.length + 1) ∧
    (keydownNewTab id2 dir (keydownNewTab id1 dir s) = keydownNewTab id1 dir s) := by
  have h1 : keydownNewTab id1 dir s =
      { mgr := addNewTab id1 none none none dir s.mgr, isCreatingTab := true } := by
    simp [keydownNewTab, h]
  have h2 : keydownNewTab id2 dir (keydownNewTab id1 dir s)
      = keydownNewTab id1 dir s := by
    rw [h1]
    simp [keydownNewTab]
  refine ⟨?_, h2⟩
  rw [h2, h1]
  simp [addNewTab]

/-- C6 witness: two rapid Cmd+T on the unlocked empty panel create
exactly one tab. -/
theorem keyboard_new_tab_lock_single_creation_witness :
    (panelUnlocked.isCreatingTab = false) ∧
    ((keydownNewTab "tab-2" "/d" (keydownNewTab "tab-1" "/d" panelUnlocked)).mgr.tabs.length
        = panelUnlocked.mgr.tabs.length + 1) :=
  ⟨rfl, (keyboard_new_tab_lock_single_creation panelUnlocked "tab-1" "tab-2" "/d" rfl).1⟩

/-! ## C7 — ownership lost handling -/

/-- C7 counterexample: `TerminalTabContent` claims ownership of its
restored session `s1` (its `claimed` log shows the claim) but registers
no `terminal:ownershipLost` handler: the ownership-lost notification for
`s1` leaves its state completely unchanged, and user input afterwards is
still forwarded to the session — refuting the claim that EVERY claimant
subscribes to the ownership-lost signal and stops forwarding input. -/
theorem tab_content_claims_without_ownership_subscription :
    (tabContentReady.claimed = ["s1"]) ∧
    (tabContentStep tabContentReady (.ownershipLost "s1" (some 2)) = tabContentReady) ∧
    ((tabContentUserInput
        (tabContentStep tabContentReady (.ownershipLost "s1" (some 2))) "x").sentInput
        = ["x"]) := by
  decide

/-- C7 (amended): `GhosttyTerminal` (but not `TerminalTabContent`, see
the counterexample) subscribes to `terminal:ownershipLost` whenever it
has a session; on receiving the notification for its session it stops
rendering, its terminal instance is disposed so user input is no longer
forwarded, its data/exit subscription guard drops, and it presents the
"Take Control Here" affordance. -/
theorem ghostty_ownership_lost_stops_writer (s : GhosttyState) (sid : String)
    (owner : Option Nat) (hsid : s.sessionId = some sid)
    (htrans : s.isTransitioning = false) :
    ((ghosttyStep s (.ownershipLost sid owner)).shouldRenderTerminal = false) ∧
    ((ghosttyStep s (.ownershipLost sid owner)).termMounted = false) ∧
    (∀ input, ghosttyUserInput (ghosttyStep s (.ownershipLost sid owner)) input
        = ghosttyStep s (.ownershipLost sid owner)) ∧
    (dataExitSubscribed (ghosttyStep s (.ownershipLost sid owner)) = false) ∧
    (showsTakeControl (ghosttyStep s (.ownershipLost sid owner)) = true) ∧
    ((ghosttyStep s (.ownershipLost sid owner)).canTakeControl = true) := by
  have hsub : ownershipLostSubscribed s = true := by
    simp [ownershipLostSubscribed, hsid]
  have hstep : ghosttyStep s (.ownershipLost sid owner) =
      reconcileEffects
        { s with
            isOwned := true
            ownedByWindowId := jsNumOrNull owner
            canTakeControl := true
            shouldRenderTerminal := false } := by
    simp [ghosttyStep, hsub, hsid]
  rw [hstep]
  refine ⟨rfl, by simp [reconcileEffects], ?_, ?_, ?_, rfl⟩
  · intro input
    simp [ghosttyUserInput, reconcileEffects]
  · simp [dataExitSubscribed, reconcileEffects]
  · simp [showsTakeControl, showsOverlay, reconcileEffects, htrans]

/-- C7 witness: the ready `GhosttyTerminal` loses ownership of `s1`; it
stops being the writer and shows the take-control affordance. -/
theorem ghostty_ownership_lost_stops_writer_witness :
    ((ghosttyStep ghosttyReady (.ownershipLost "s1" (some 2))).termMounted = false) ∧
    (showsTakeControl (ghosttyStep ghosttyReady (.ownershipLost "s1" (some 2))) = true) :=
  ⟨(ghostty_ownership_lost_stops_writer ghosttyReady "s1" (some 2) rfl rfl).2.1,
   (ghostty_ownership_lost_stops_writer ghosttyReady "s1" (some 2) rfl rfl).2.2.2.2.1⟩

/-! ## C8 — late session-created notification -/

/-- C8: if a tab has no session entry yet and is closed before its
asynchronous `createTerminalSession` call resolves, the resolution is
dropped (the tab no longer exists, so the `mounted` guard fails) and the
tab-id → session-id map gains no entry for the closed tab. -/
theorem session_created_after_close_dropped (da df : Bool) (tabId sid : String)
    (s : MgrState) (hnone : mapLookup s.sessionIds tabId = none) :
    (onSessionCreatedResolved tabId sid (closeTab da df tabId s).1
        = (closeTab da df tabId s).1) ∧
    (mapLookup (onSessionCreatedResolved tabId sid (closeTab da df tabId s).1).sessionIds
        tabId = none) := by
  have hnotin : tabId ∉ (closeTab da df tabId s).1.tabs.map (fun t => t.id) := by
    rw [closeTab_tabs_map_id]
    exact not_mem_filter_ne_self tabId s.tabs
  have hres : onSessionCreatedResolved tabId sid (closeTab da df tabId s).1
      = (closeTab da df tabId s).1 := by
    unfold onSessionCreatedResolved
    rw [if_neg hnotin]
  refine ⟨hres, ?_⟩
  rw [hres, closeTab_sessionIds_of_none da df tabId s hnone]
  exact hnone

/-- C8 witness: close tab `A` (which has no session yet), then let its
create call resolve with `sess-9`; the map stays without an entry. -/
theorem session_created_after_close_dropped_witness :
    (mapLookup cexC1.sessionIds "A" = none) ∧
    (mapLookup (onSessionCreatedResolved "A" "sess-9"
        (closeTab true false "A" cexC1).1).sessionIds "A" = none) :=
  ⟨rfl, (session_created_after_close_dropped true false "A" "sess-9" cexC1 rfl).2⟩

/-! ## C9 — destroy failure only logged -/

/-- C9: when the destroy request of the bound session fails, `closeTab`
reaches exactly the same state as when it succeeds — the tab is removed,
its map entry is deleted — and the failure shows up only as a log line
(no error state exists in the manager to surface it as fatal). -/
theorem closeTab_destroy_failure_cleanup_proceeds (tabId sid : String) (s : MgrState)
    (hbound : mapLookup s.sessionIds tabId = some sid)
    (hkeys : (s.sessionIds.map Prod.fst).Nodup) :
    ((closeTab true true tabId s).1 = (closeTab true false tabId s).1) ∧
    (mapLookup (closeTab true true tabId s).1.sessionIds tabId = none) ∧
    (tabId ∉ (closeTab true true tabId s).1.tabs.map (fun t => t.id)) ∧
    ((closeTab true true tabId s).2
        = ["[TabbedGhosttyTerminal] Failed to destroy session"]) := by
  have hsidT := closeTab_sessionIds_of_some true tabId sid s hbound
  have hsidF := closeTab_sessionIds_of_some false tabId sid s hbound
  refine ⟨?_, ?_, ?_, ?_⟩
  · by_cases hnil : s.tabs.filter (fun t => t.id != tabId) = []
    · exact mgrState_eq
        (by rw [(closeTab_branchB true true tabId s hnil).1,
                (closeTab_branchB true false tabId s hnil).1])
        (by rw [(closeTab_branchB true true tabId s hnil).2,
                (closeTab_branchB true false tabId s hnil).2])
        (by rw [hsidT.1, hsidF.1])
    · have hpos := List.length_pos.mpr hnil
      by_cases hA : s.activeTabId = some tabId
      · exact mgrState_eq
          (by rw [(closeTab_branchA true true tabId s hA hpos).1,
                  (closeTab_branchA true false tabId s hA hpos).1])
          (by rw [(closeTab_branchA true true tabId s hA hpos).2,
                  (closeTab_branchA true false tabId s hA hpos).2])
          (by rw [hsidT.1, hsidF.1])
      · exact mgrState_eq
          (by rw [(closeTab_branchC true true tabId s hA hpos).1,
                  (closeTab_branchC true false tabId s hA hpos).1])
          (by rw [(closeTab_branchC true true tabId s hA hpos).2,
                  (closeTab_branchC true false tabId s hA hpos).2])
          (by rw [hsidT.1, hsidF.1])
  · rw [hsidT.1]
    exact mapLookup_mapDelete_self s.sessionIds tabId hkeys
  · rw [closeTab_tabs_map_id]
    exact not_mem_filter_ne_self tabId s.tabs
  · rw [hsidT.2]
    rfl

/-- C9 witness: tab `A` with bound session `sess-1`; a failing destroy
still removes the tab and its map entry, and reaches the same state as a
successful destroy. -/
theorem closeTab_destroy_failure_cleanup_proceeds_witness :
    ((closeTab true true "A" mgrBound).1 = (closeTab true false "A" mgrBound).1) ∧
    (mapLookup (closeTab true true "A" mgrBound).1.sessionIds "A" = none) :=
  ⟨(closeTab_destroy_failure_cleanup_proceeds "A" "sess-1" mgrBound rfl
      (by decide)).1,
   (closeTab_destroy_failure_cleanup_proceeds "A" "sess-1" mgrBound rfl
      (by decide)).2.1⟩

/-! ## C10 — new-tab buttons bypass the lock -/

/-- C10: the tab-bar `+` button and the empty-state `New Terminal` button
call `addNewTab()` directly, never reading or writing the 500ms
re-entrancy lock: even while the lock is held, two button clicks create
two tabs, and the lock flag is untouched. -/
theorem button_new_tab_bypasses_lock (s : PanelState) (id1 id2 dir : String)
    (h : s.isCreatingTab = true) :
    ((buttonClickNewTab id2 dir (buttonClickNewTab id1 dir s)).mgr.tabs.length
        = s.mgr.tabs.length + 2) ∧
    ((buttonClickNewTab id2 dir (buttonClickNewTab id1 dir s)).isCreatingTab = true) := by
  constructor
  · simp only [buttonClickNewTab, addNewTab, List.length_append, List.length_map,
      List.length_singleton]
  · simpa [buttonClickNewTab] using h

/-- C10 witness: with the lock held, two `+` clicks create two tabs. -/
theorem button_new_tab_bypasses_lock_witness :
    (panelLocked.isCreatingTab = true) ∧
    ((buttonClickNewTab "tab-2" "/d" (buttonClickNewTab "tab-1" "/d" panelLocked)).mgr.tabs.length
        = panelLocked.mgr.tabs.length + 2) :=
  ⟨rfl, (button_new_tab_bypasses_lock panelLocked "tab-1" "tab-2" "/d" rfl).1⟩

end GhosttyPanel
